import Mathlib

/-!
Shallow embedding of the research-bot clarification/research pipeline and of
the real-estate assistant's response adapter, translated from the Python
sources `research_bot/manager.py`, `research_bot/conversation_manager.py`,
`research_bot/ui/app.py` and `RealState_Assistant/src/ui/utils.py`.

External LLM/agent calls (`Runner.run` on the clarifying, planner, search and
writer agents) are modelled as oracle functions supplied as parameters;
fallible calls (planner, writer) return `Except`, and a single search whose
exception is swallowed returns `Option` (as in `ResearchManager._search`).
-/

/-- `ClarificationResult` from `research_bot/agents/clarifying_agent.py`:
structured output of the clarifying agent. -/
structure ClarificationQuestion where
  question : String
  reason : String
deriving DecidableEq, Repr

structure ClarificationResult where
  needs_clarification : Bool
  clarified_query : Option String
  clarification_questions : List ClarificationQuestion
  reasoning : String
deriving DecidableEq, Repr

/-- `WebSearchItem` from `research_bot/agents/planner_agent.py`. -/
structure WebSearchItem where
  query : String
  reason : String
deriving DecidableEq, Repr

/-- `WebSearchPlan` from `research_bot/agents/planner_agent.py`. -/
structure WebSearchPlan where
  searches : List WebSearchItem
deriving DecidableEq, Repr

/-- `ReportData` from `research_bot/agents/writer_agent.py`. -/
structure ReportData where
  short_summary : String
  markdown_report : String
  follow_up_questions : List String
deriving DecidableEq, Repr

/-- Python truthiness fallback `x or y` on an optional string:
`None or y = y`, `"" or y = y`, otherwise the string itself.
Used as `clar_res.clarified_query or current_query` in both
`manager.py` and `conversation_manager.py`. -/
def pyOr : Option String → String → String
  | none, d => d
  | some s, d => if s = "" then d else s

/-- The `"Q: ...\nA: ..."` answer block built in `_clarify_query`
(`manager.py` lines 88-100): one entry per clarification question,
joined by newlines. -/
def answerBlock (answer : ClarificationQuestion → String)
    (qs : List ClarificationQuestion) : String :=
  String.intercalate "\n" (qs.map (fun q => "Q: " ++ q.question ++ "\nA: " ++ answer q))

/-- The reassembled prompt of `_clarify_query` (`manager.py` lines 102-105):
`"Original query: {query}\n\nUser clarifications:\n" + answers`. -/
def mkClarPrompt (query : String) (block : String) : String :=
  "Original query: " ++ query ++ "\n\nUser clarifications:\n" ++ block

/-- The round loop of `ResearchManager._clarify_query` (`manager.py` lines
72-105).  `clarifier i s` models `Runner.run(clarifying_agent, s)` at round
`i` (the round index accounts for the session history the agent sees);
`answer i q` models the user's `input()` reply to question `q` in round `i`.
`fuel` is the number of remaining rounds, `current` the accumulated prompt. -/
def clarifyFrom (clarifier : Nat → String → ClarificationResult)
    (answer : Nat → ClarificationQuestion → String) (query : String) :
    Nat → Nat → String → String
  | _, 0, current => current
  | roundIdx, fuel + 1, current =>
    if (clarifier roundIdx current).needs_clarification then
      clarifyFrom clarifier answer query (roundIdx + 1) fuel
        (mkClarPrompt query
          (answerBlock (answer roundIdx)
            (clarifier roundIdx current).clarification_questions))
    else
      pyOr (clarifier roundIdx current).clarified_query current

/-- `ResearchManager._clarify_query`: `max_rounds = 3`, starting prompt is the
raw query; after the loop the last assembled prompt is returned (`manager.py`
line 113). -/
def clarify_query (clarifier : Nat → String → ClarificationResult)
    (answer : Nat → ClarificationQuestion → String) (query : String) : String :=
  clarifyFrom clarifier answer query 0 3 query

/-- The prompt held in `current_query` on entry to round `n` of
`_clarify_query`, assuming every earlier round requested clarification:
round 0 sees the raw query; round `n+1` sees the prompt rebuilt from round
`n`'s questions and answers. -/
def promptAfter (clarifier : Nat → String → ClarificationResult)
    (answer : Nat → ClarificationQuestion → String) (query : String) : Nat → String
  | 0 => query
  | n + 1 =>
    mkClarPrompt query
      (answerBlock (answer n)
        (clarifier n (promptAfter clarifier answer query n)).clarification_questions)

/-- The fan-in loop of `ResearchManager._perform_searches` (`manager.py`
lines 137-145): drains completed tasks in completion order, appends a summary
when `_search` returned one, drops the item when it returned `None`
(swallowed exception), and increments `num_completed` either way. -/
def searchLoop (search : WebSearchItem → Option String) :
    List WebSearchItem → List String → Nat → List String × Nat
  | [], results, numCompleted => (results, numCompleted)
  | item :: rest, results, numCompleted =>
    match search item with
    | some r => searchLoop search rest (results ++ [r]) (numCompleted + 1)
    | none => searchLoop search rest results (numCompleted + 1)

/-- `ResearchManager._perform_searches`: a task is created for every planned
item; `order` is the completion order in which `asyncio.as_completed` yields
them (any permutation of the plan). Returns the collected summaries and the
final `num_completed` counter. -/
def perform_searches (search : WebSearchItem → Option String)
    (order : List WebSearchItem) : List String × Nat :=
  searchLoop search order [] 0

/-- The progress line `f"Searching... {num_completed}/{len(tasks)} completed"`
printed after each completion (`manager.py` line 144). -/
def progressMsg (completed total : Nat) : String :=
  "Searching... " ++ toString completed ++ "/" ++ toString total ++ " completed"

/-- `ResearchManager.run` minus presentation (`manager.py` lines 41-45):
clarify, then plan (`_plan_searches` submits `"Query: {query}"`), then search,
then write (`_write_report` receives the clarified query and the summary
list).  Planner and writer failures propagate uncaught. -/
def manager_run (clarifier : Nat → String → ClarificationResult)
    (answer : Nat → ClarificationQuestion → String)
    (planner : String → Except String WebSearchPlan)
    (search : WebSearchItem → Option String)
    (completionOrder : List WebSearchItem → List WebSearchItem)
    (writer : String → List String → Except String ReportData)
    (query : String) : Except String ReportData :=
  match planner ("Query: " ++ clarify_query clarifier answer query) with
  | .error e => .error e
  | .ok plan =>
    writer (clarify_query clarifier answer query)
      (perform_searches search (completionOrder plan.searches)).1

/-- The dialogue phase of `ConversationManager`
(`conversation_manager.py` line 23). -/
inductive Phase
  | waiting_query
  | clarify
  | research
deriving DecidableEq, Repr

/-- The mutable fields of `ConversationManager` set in `__init__`
(`conversation_manager.py` lines 22-27). -/
structure ConvState where
  phase : Phase
  clar_res : Option ClarificationResult
  context_summaries : List String
  last_report : Option ReportData
  initial_query : String
deriving DecidableEq, Repr

/-- A `{role, content}` chat message exchanged with the UI. -/
structure ChatMessage where
  role : String
  content : String
deriving DecidableEq, Repr

/-- The external agent calls `ConversationManager` depends on:
`clarifier` models `_run_clarifier`; `planner`, `search`, `writer` model the
stages reached through `UIMgr().run`; `completionOrder` models the order in
which `asyncio.as_completed` yields the search tasks. -/
structure ConvOracles where
  clarifier : String → ClarificationResult
  planner : String → Except String WebSearchPlan
  search : WebSearchItem → Option String
  completionOrder : List WebSearchItem → List WebSearchItem
  writer : String → List String → Except String ReportData

/-- The context-prefixing of `ConversationManager._run_research`
(`conversation_manager.py` lines 77-82): when summaries exist, join the last
three (`[-3:]`, most-recent-last) with `"\n---\n"` and prefix them. -/
def contextCombined (summaries : List String) (query : String) : String :=
  if summaries = [] then query
  else
    "Previous context:\n" ++
      String.intercalate "\n---\n" (summaries.drop (summaries.length - 3)) ++
      "\n\nCurrent query: " ++ query

/-- `ConversationManager._run_research` (`conversation_manager.py` lines
76-91).  `UIMgr` overrides `_clarify_query` to the identity, so the combined
query goes straight to the planner (`_plan_searches` submits
`"Query: {query}"`), the searches and the writer.  On success the report's
short summary is appended to `context_summaries` and the report stored in
`last_report`; an exception from planner or writer propagates with the state
unchanged.  Returns the outcome together with the resulting state. -/
def run_research (o : ConvOracles) (st : ConvState) (query : String) :
    Except String ReportData × ConvState :=
  match o.planner ("Query: " ++ contextCombined st.context_summaries query) with
  | .error e => (.error e, st)
  | .ok plan =>
    match o.writer (contextCombined st.context_summaries query)
        (perform_searches o.search (o.completionOrder plan.searches)).1 with
    | .error e => (.error e, st)
    | .ok report =>
      (.ok report,
        { st with
          context_summaries := st.context_summaries ++ [report.short_summary],
          last_report := some report })

/-- `ConversationManager._report_to_messages` (`conversation_manager.py`
lines 96-106): exactly two assistant messages, the summary banner and the
follow-up questions joined by blank lines. -/
def report_to_messages (report : ReportData) : List ChatMessage :=
  [⟨"assistant", "### Research Complete\n\n**Summary:** " ++ report.short_summary⟩,
   ⟨"assistant", String.intercalate "\n\n" report.follow_up_questions⟩]

/-- The static busy reply of the `research` phase
(`conversation_manager.py` line 63). -/
def waitMessage : ChatMessage :=
  ⟨"assistant", "Please wait while I finish the research…"⟩

/-- `ConversationManager.handle_user_message` (`conversation_manager.py`
lines 30-65).  Returns the assistant messages (or the propagated exception
text) together with the resulting controller state.  Note that on the
research branches `self.phase` is set to `research` *before* the awaited
pipeline call, so a propagated exception leaves the state in `research`. -/
def handle_user_message (o : ConvOracles) (st : ConvState) (msg : String) :
    Except String (List ChatMessage) × ConvState :=
  match st.phase with
  | .waiting_query =>
    if (o.clarifier msg).needs_clarification then
      (.ok [⟨"assistant",
            String.intercalate "\n"
              ((o.clarifier msg).clarification_questions.map (fun q => q.question))⟩],
        { st with initial_query := msg, phase := .clarify,
                  clar_res := some (o.clarifier msg) })
    else
      match run_research o { st with initial_query := msg, phase := .research }
          (pyOr (o.clarifier msg).clarified_query msg) with
      | (.ok report, st3) =>
        (.ok (report_to_messages report), { st3 with phase := .waiting_query })
      | (.error e, st3) => (.error e, st3)
  | .clarify =>
    match run_research o { st with phase := .research }
        (pyOr
          (o.clarifier
            ("Original query: " ++ st.initial_query ++
              "\n\nUser clarifications:\n" ++ msg)).clarified_query
          ("Original query: " ++ st.initial_query ++
            "\n\nUser clarifications:\n" ++ msg)) with
    | (.ok report, st3) =>
      (.ok (report_to_messages report), { st3 with phase := .waiting_query })
    | (.error e, st3) => (.error e, st3)
  | .research => (.ok [waitMessage], st)

/-- `handle_user_input` from `research_bot/ui/app.py` (lines 193-229): the
user message is appended to the chat log, then either the assistant messages
returned by `handle_user_message` are appended
(`process_assistant_messages`), or — when the pipeline raised — the single
error message `f"Sorry, I encountered an error: {str(e)}"` is appended. -/
def handle_user_input (o : ConvOracles) (st : ConvState)
    (log : List ChatMessage) (msg : String) : List ChatMessage × ConvState :=
  let log1 := log ++ [⟨"user", msg⟩]
  match handle_user_message o st msg with
  | (.ok msgs, st3) => (log1 ++ msgs, st3)
  | (.error e, st3) =>
    (log1 ++ [⟨"assistant", "Sorry, I encountered an error: " ++ e⟩], st3)

/-- The `{response, steps}` dictionary produced by the real-estate
assistant's response helpers (`RealState_Assistant/src/ui/utils.py`). -/
structure AgentResponse where
  response : String
  steps : List String
deriving DecidableEq, Repr

/-- The canned placeholder returned by `get_response` when no API key is
configured (`utils.py` line 405). -/
def defaultJoke : String :=
  "No API key provided, so here\x27s a default joke: Why did the coffee file a police report? It got mugged."

/-- `get_response` from `RealState_Assistant/src/ui/utils.py` lines 394-414.
`api_key_missing` and `use_streaming` model
`st.session_state.get("api_key_missing", True)` and
`st.session_state.get("use_streaming", True)` (absent keys default to
`True`); `runPipeline b` models the agent invocation, streaming when
`b = true` (`render_streaming_response`) and blocking otherwise
(`render_static_response`). -/
def get_response (runPipeline : Bool → AgentResponse)
    (api_key_missing : Option Bool) (use_streaming : Option Bool) : AgentResponse :=
  if api_key_missing.getD true then ⟨defaultJoke, []⟩
  else runPipeline (use_streaming.getD true)

/-! ## Helper lemmas -/

/-- The fan-in loop collects exactly the successful summaries (in drain
order) and counts every drained task. -/
theorem searchLoop_eq (search : WebSearchItem → Option String) :
    ∀ (order : List WebSearchItem) (results : List String) (n : Nat),
      searchLoop search order results n =
        (results ++ order.filterMap search, n + order.length) := by
  intro order
  induction order with
  | nil => intro results n; simp [searchLoop]
  | cons item rest ih =>
    intro results n
    cases h : search item with
    | none =>
      simp only [searchLoop, h, ih, List.filterMap_cons_none, List.length_cons,
        Prod.mk.injEq]
      exact ⟨trivial, by omega⟩
    | some r =>
      simp only [searchLoop, h, ih, List.length_cons, Prod.mk.injEq]
      constructor
      · rw [List.filterMap_cons, h, List.append_assoc, List.singleton_append]
      · omega

/-- `_perform_searches` returns the filterMap of the drain order together
with its length as the completion counter. -/
theorem perform_searches_eq (search : WebSearchItem → Option String)
    (order : List WebSearchItem) :
    perform_searches search order = (order.filterMap search, order.length) := by
  simp [perform_searches, searchLoop_eq]

/-- One clarification round that requests clarification rebuilds the prompt
and recurses with one unit of fuel less. -/
theorem clarifyFrom_step (clarifier : Nat → String → ClarificationResult)
    (answer : Nat → ClarificationQuestion → String) (query : String)
    (roundIdx fuel : Nat) (current : String)
    (h : (clarifier roundIdx current).needs_clarification = true) :
    clarifyFrom clarifier answer query roundIdx (fuel + 1) current =
      clarifyFrom clarifier answer query (roundIdx + 1) fuel
        (mkClarPrompt query
          (answerBlock (answer roundIdx)
            (clarifier roundIdx current).clarification_questions)) := by
  simp only [clarifyFrom, h, if_true]

/-! ## C1: Clarifier round bound and fallback -/

/-- C1: the Clarifier stage runs at most 3 rounds; a round whose result has
`needs_clarification = false` returns immediately with
`clarified_query or current_query`; and when every round requests
clarification the loop still terminates after round 3 and returns the last
assembled prompt verbatim (`promptAfter … 3`). -/
theorem clarifier_round_bound (clarifier : Nat → String → ClarificationResult)
    (answer : Nat → ClarificationQuestion → String) (query : String) :
    ((clarifier 0 query).needs_clarification = false →
      clarify_query clarifier answer query =
        pyOr (clarifier 0 query).clarified_query query) ∧
    ((∀ i s, (clarifier i s).needs_clarification = true) →
      clarify_query clarifier answer query =
        promptAfter clarifier answer query 3) := by
  constructor
  · intro h
    show clarifyFrom clarifier answer query 0 (2 + 1) query = _
    simp only [clarifyFrom, h, Bool.false_eq_true, if_false]
  · intro h
    show clarifyFrom clarifier answer query 0 (2 + 1) query = _
    rw [clarifyFrom_step clarifier answer query 0 2 query (h 0 query)]
    show clarifyFrom clarifier answer query 1 (1 + 1)
        (promptAfter clarifier answer query 1) = _
    rw [clarifyFrom_step clarifier answer query 1 1 _ (h 1 _)]
    show clarifyFrom clarifier answer query 2 (0 + 1)
        (promptAfter clarifier answer query 2) = _
    rw [clarifyFrom_step clarifier answer query 2 0 _ (h 2 _)]
    show clarifyFrom clarifier answer query 3 0
        (promptAfter clarifier answer query 3) = _
    rfl

/-- A stub clarifier that always requests clarification, as in the spec's
round-bound test. -/
def stubAlwaysClar : Nat → String → ClarificationResult := fun _ _ =>
  { needs_clarification := true
    clarified_query := none
    clarification_questions := [⟨"What city?", "scope"⟩]
    reasoning := "too broad" }

/-- Stub user answers (non-interactive `input()` path returns `""`). -/
def stubAnswer : Nat → ClarificationQuestion → String := fun _ _ => ""

/-- C1 witness: with the always-clarify stub the loop still returns a string
after the 3rd round, namely the last assembled prompt. -/
theorem clarifier_round_bound_witness :
    clarify_query stubAlwaysClar stubAnswer "best time to buy" =
      promptAfter stubAlwaysClar stubAnswer "best time to buy" 3 :=
  (clarifier_round_bound stubAlwaysClar stubAnswer "best time to buy").2
    (fun _ _ => rfl)

/-! ## C3: every planned item dispatched once; failures dropped but counted -/

/-- C3: for any completion order of the planned items, the completion counter
ends at the plan's size (so the final progress line is N/N), and the returned
collection has exactly one summary per non-failing planned item. -/
theorem searches_dispatch_once_and_count (search : WebSearchItem → Option String)
    (plan : WebSearchPlan) (order : List WebSearchItem)
    (hperm : order.Perm plan.searches) :
    (perform_searches search order).2 = plan.searches.length ∧
    (perform_searches search order).1.length =
      (plan.searches.filter (fun i => (search i).isSome)).length ∧
    progressMsg (perform_searches search order).2 plan.searches.length =
      progressMsg plan.searches.length plan.searches.length := by
  have h1 : perform_searches search order = (order.filterMap search, order.length) :=
    perform_searches_eq search order
  refine ⟨?_, ?_, ?_⟩
  · rw [h1]; exact hperm.length_eq
  · rw [h1]
    show (order.filterMap search).length = _
    rw [List.length_filterMap_eq_countP, hperm.countP_eq,
      List.countP_eq_length_filter]
  · rw [h1]
    show progressMsg order.length _ = _
    rw [hperm.length_eq]

/-- Five planned search items, as in the spec's Search-stage scenario. -/
def c3Items : List WebSearchItem :=
  [⟨"q1", "r1"⟩, ⟨"q2", "r2"⟩, ⟨"q3", "r3"⟩, ⟨"q4", "r4"⟩, ⟨"q5", "r5"⟩]

/-- A search oracle where items 2 and 4 raise (return `none`). -/
def c3Search : WebSearchItem → Option String := fun i =>
  if i.query = "q2" || i.query = "q4" then none
  else some ("summary for " ++ i.query)

/-- C3 witness: 5 planned items with items {2,4} failing yield exactly 3
summaries and a final 5/5 progress line. -/
theorem searches_dispatch_once_and_count_witness :
    (perform_searches c3Search c3Items).2 = 5 ∧
    (perform_searches c3Search c3Items).1.length = 3 ∧
    progressMsg (perform_searches c3Search c3Items).2 5 =
      "Searching... 5/5 completed" := by
  obtain ⟨h1, h2, h3⟩ :=
    searches_dispatch_once_and_count c3Search ⟨c3Items⟩ c3Items (List.Perm.refl c3Items)
  refine ⟨h1.trans (by decide), h2.trans (by decide), ?_⟩
  rw [h1]
  decide

/-! ## C4: fallback when `clarified_query` is empty or absent -/

/-- A clarifier that asks one question in round 0 and then, in round 1,
declares the query clear but returns no `clarified_query`. -/
def c4Clarifier : Nat → String → ClarificationResult
  | 0, _ =>
    { needs_clarification := true
      clarified_query := none
      clarification_questions := [⟨"Which region?", "ambiguous"⟩]
      reasoning := "unclear" }
  | _ + 1, _ =>
    { needs_clarification := false
      clarified_query := none
      clarification_questions := []
      reasoning := "clear enough" }

/-- The user's answer to the round-0 question. -/
def c4Answer : Nat → ClarificationQuestion → String := fun _ _ => "Region 13"

/-- C4 counterexample: in round 1 of `_clarify_query` the clarifier returns
`needs_clarification = false` with `clarified_query = None`, yet the resolved
query is the round-1 assembled prompt (`current_query`), not the original
user query. -/
theorem resolved_query_not_original :
    (c4Clarifier 1 (promptAfter c4Clarifier c4Answer "best time to buy" 1)).needs_clarification
        = false ∧
    (c4Clarifier 1 (promptAfter c4Clarifier c4Answer "best time to buy" 1)).clarified_query
        = none ∧
    clarify_query c4Clarifier c4Answer "best time to buy" =
      promptAfter c4Clarifier c4Answer "best time to buy" 1 ∧
    clarify_query c4Clarifier c4Answer "best time to buy" ≠ "best time to buy" := by
  refine ⟨rfl, rfl, ?_, ?_⟩ <;> decide

/-- A clarifier that immediately declares the query clear with no
`clarified_query`. -/
def noClarify : Nat → String → ClarificationResult := fun _ _ =>
  { needs_clarification := false
    clarified_query := none
    clarification_questions := []
    reasoning := "clear" }

/-- C4 amended: resolution falls back to the *current* prompt — which is the
original user query only when the clear verdict arrives in the first round
(and in the controller's `waiting_query` branch, where the fallback is the
raw user message) — and the resolved query is non-empty whenever that
fallback is non-empty. -/
theorem resolve_falls_back_to_current_prompt
    (clarifier : Nat → String → ClarificationResult)
    (answer : Nat → ClarificationQuestion → String) (query : String)
    (cq : Option String) (fallback : String)
    (hempty : cq = none ∨ cq = some "")
    (h0 : (clarifier 0 query).needs_clarification = false)
    (h0e : (clarifier 0 query).clarified_query = none ∨
      (clarifier 0 query).clarified_query = some "") :
    pyOr cq fallback = fallback ∧
    (∀ (other : Option String), fallback ≠ "" → pyOr other fallback ≠ "") ∧
    clarify_query clarifier answer query = query := by
  refine ⟨?_, ?_, ?_⟩
  · rcases hempty with h | h <;> simp [h, pyOr]
  · intro other hne
    cases other with
    | none => simpa [pyOr] using hne
    | some s =>
      by_cases hs : s = "" <;> simp [pyOr, hs, hne]
  · show clarifyFrom clarifier answer query 0 (2 + 1) query = _
    simp only [clarifyFrom, h0, Bool.false_eq_true, if_false]
    rcases h0e with h | h <;> simp [h, pyOr]

/-- C4 witness: a first-round clear verdict with absent `clarified_query`
resolves to the original query. -/
theorem resolve_falls_back_witness :
    pyOr none "best time to buy" = "best time to buy" ∧
    (∀ (other : Option String), "best time to buy" ≠ "" →
      pyOr other "best time to buy" ≠ "") ∧
    clarify_query noClarify stubAnswer "best time to buy" = "best time to buy" :=
  resolve_falls_back_to_current_prompt noClarify stubAnswer "best time to buy"
    none "best time to buy" (Or.inl rfl) rfl (Or.inl rfl)

/-! ## C6: Writer still invoked on an empty search-result collection -/

/-- C6: when every planned item's search fails, the Search stage returns the
empty collection and `run` still invokes the Writer with the resolved query
and the empty summary list, producing whatever well-formed `ReportData` the
writer returns. -/
theorem writer_invoked_on_empty_results
    (clarifier : Nat → String → ClarificationResult)
    (answer : Nat → ClarificationQuestion → String)
    (planner : String → Except String WebSearchPlan)
    (search : WebSearchItem → Option String)
    (completionOrder : List WebSearchItem → List WebSearchItem)
    (writer : String → List String → Except String ReportData)
    (query : String) (plan : WebSearchPlan)
    (hplan : planner ("Query: " ++ clarify_query clarifier answer query) = .ok plan)
    (hperm : (completionOrder plan.searches).Perm plan.searches)
    (hfail : ∀ i ∈ plan.searches, search i = none) :
    (perform_searches search (completionOrder plan.searches)).1 = [] ∧
    manager_run clarifier answer planner search completionOrder writer query =
      writer (clarify_query clarifier answer query) [] := by
  have hres : (completionOrder plan.searches).filterMap search = [] := by
    rw [List.filterMap_eq_nil_iff]
    intro a ha
    exact hfail a (hperm.mem_iff.mp ha)
  have hp : (perform_searches search (completionOrder plan.searches)).1 = [] := by
    rw [perform_searches_eq]
    exact hres
  refine ⟨hp, ?_⟩
  unfold manager_run
  rw [hplan]
  show writer (clarify_query clarifier answer query)
      (perform_searches search (completionOrder plan.searches)).1 = _
  rw [hp]

/-- A planner stub returning two items. -/
def c6Planner : String → Except String WebSearchPlan := fun _ =>
  .ok ⟨[⟨"t1", "r1"⟩, ⟨"t2", "r2"⟩]⟩

/-- A search oracle where every item raises. -/
def failSearch : WebSearchItem → Option String := fun _ => none

/-- A report noting the lack of evidence. -/
def emptyEvidenceReport : ReportData :=
  ⟨"no evidence", "# Report\nNo evidence found.", ["Retry with broader terms?"]⟩

/-- A writer stub that still succeeds on an empty summary collection. -/
def c6Writer : String → List String → Except String ReportData := fun _ _ =>
  .ok emptyEvidenceReport

/-- C6 witness: all searches fail, yet the writer receives the empty list and
the cycle produces its report. -/
theorem writer_invoked_on_empty_results_witness :
    (perform_searches failSearch
        ((fun l => l) (WebSearchPlan.mk [⟨"t1", "r1"⟩, ⟨"t2", "r2"⟩]).searches)).1 = [] ∧
    manager_run noClarify stubAnswer c6Planner failSearch (fun l => l) c6Writer "q" =
      c6Writer (clarify_query noClarify stubAnswer "q") [] :=
  writer_invoked_on_empty_results noClarify stubAnswer c6Planner failSearch
    (fun l => l) c6Writer "q" ⟨[⟨"t1", "r1"⟩, ⟨"t2", "r2"⟩]⟩ rfl
    (List.Perm.refl _) (by decide)

/-! ## C10: missing API credential yields the canned placeholder -/

/-- C10: with no provider credential configured (including the absent-key
default), `get_response` returns the fixed canned reply with an empty steps
list, and the result is independent of the agent pipeline — no streaming or
non-streaming call is consulted. -/
theorem missing_key_placeholder (runPipeline altPipeline : Bool → AgentResponse)
    (api_key_missing use_streaming : Option Bool)
    (h : api_key_missing.getD true = true) :
    get_response runPipeline api_key_missing use_streaming = ⟨defaultJoke, []⟩ ∧
    get_response runPipeline api_key_missing use_streaming =
      get_response altPipeline api_key_missing use_streaming := by
  constructor <;> simp [get_response, h]

/-- C10 witness: unset session keys (both default to `True`) give the joke
reply regardless of the pipeline. -/
theorem missing_key_placeholder_witness :
    get_response (fun _ => ⟨"live answer", ["step 1"]⟩) none none = ⟨defaultJoke, []⟩ ∧
    get_response (fun _ => ⟨"live answer", ["step 1"]⟩) none none =
      get_response (fun _ => ⟨"other answer", []⟩) none none :=
  missing_key_placeholder (fun _ => ⟨"live answer", ["step 1"]⟩)
    (fun _ => ⟨"other answer", []⟩) none none rfl

/-! ## C5: busy (`research`) phase is a pure frame -/

/-- C5: a message delivered while the controller is in phase `research`
returns exactly the literal wait message, leaves every field of the state
unchanged, and consults no oracle (the outcome is identical under any other
set of Clarifier/Planner/Search/Writer oracles). -/
theorem busy_phase_frame (o o' : ConvOracles) (st : ConvState) (msg : String)
    (h : st.phase = Phase.research) :
    handle_user_message o st msg = (.ok [waitMessage], st) ∧
    handle_user_message o st msg = handle_user_message o' st msg := by
  constructor
  · unfold handle_user_message
    rw [h]
  · unfold handle_user_message
    rw [h]

/-- The controller state as freshly constructed by `__init__`. -/
def startState : ConvState := ⟨Phase.waiting_query, none, [], none, ""⟩

/-- The report produced by the end-to-end stub writer: three follow-ups. -/
def e2eReport : ReportData :=
  ⟨"Region 13 buying window", "# Region 13\nDetails.", ["F1?", "F2?", "F3?"]⟩

/-- Stub oracles for the spec's end-to-end scenario: clarifier immediately
clear, planner returns 2 items, every search succeeds, writer returns
`e2eReport`. -/
def e2eOracles : ConvOracles :=
  { clarifier := fun _ =>
      { needs_clarification := false
        clarified_query := some "best time to buy residential property in Region 13"
        clarification_questions := []
        reasoning := "clear" }
    planner := fun _ => .ok ⟨[⟨"prices Region 13", "trend"⟩, ⟨"rates 2025", "macro"⟩]⟩
    search := fun i => some ("summary: " ++ i.query)
    completionOrder := fun l => l
    writer := fun _ _ => .ok e2eReport }

/-- A session currently busy researching. -/
def busyState : ConvState := ⟨Phase.research, none, [], none, "q"⟩

/-- C5 witness: the busy session answers with the wait message and is left
exactly as it was. -/
theorem busy_phase_frame_witness :
    handle_user_message e2eOracles busyState "hello" = (.ok [waitMessage], busyState) :=
  (busy_phase_frame e2eOracles e2eOracles busyState "hello" rfl).1

/-! ## C7: `clarify` phase is a one-shot escape -/

/-- C7: a user message in phase `clarify` re-runs the Clarifier exactly once
on the combined "original query + raw answer blob" prompt and then —
whatever that result's `needs_clarification` flag says — proceeds straight
through the Planner/Search/Writer pipeline, ending in `waiting_query` on
normal completion.  The conclusion holds for an arbitrary clarifier result,
so no second round of controller-level questions is ever asked. -/
theorem clarify_phase_one_shot (o : ConvOracles) (st : ConvState) (msg : String)
    (report : ReportData) (st' : ConvState)
    (h : st.phase = Phase.clarify)
    (hrun : run_research o { st with phase := Phase.research }
        (pyOr
          (o.clarifier
            ("Original query: " ++ st.initial_query ++
              "\n\nUser clarifications:\n" ++ msg)).clarified_query
          ("Original query: " ++ st.initial_query ++
            "\n\nUser clarifications:\n" ++ msg)) = (.ok report, st')) :
    handle_user_message o st msg =
      (.ok (report_to_messages report), { st' with phase := Phase.waiting_query }) := by
  unfold handle_user_message
  rw [h, hrun]

/-- The pending clarification stored when the controller asked its
questions. -/
def pendingClar : ClarificationResult :=
  { needs_clarification := true
    clarified_query := none
    clarification_questions := [⟨"Which region?", "scope"⟩]
    reasoning := "ambiguous" }

/-- A session waiting for the user's clarification answers. -/
def clarifyState : ConvState :=
  ⟨Phase.clarify, some pendingClar, [], none, "best time to buy"⟩

/-- C7 witness: answering the clarification question runs one clarifier call
and the full pipeline, returning to `waiting_query` with the report stored. -/
theorem clarify_phase_one_shot_witness :
    handle_user_message e2eOracles clarifyState "Region 13" =
      (.ok (report_to_messages e2eReport),
        ⟨Phase.waiting_query, some pendingClar, ["Region 13 buying window"],
          some e2eReport, "best time to buy"⟩) :=
  clarify_phase_one_shot e2eOracles clarifyState "Region 13" e2eReport
    ⟨Phase.research, some pendingClar, ["Region 13 buying window"],
      some e2eReport, "best time to buy"⟩
    rfl rfl

/-! ## C9: a completed cycle appends exactly two assistant messages -/

/-- C9: a normally completing research cycle produces exactly the two
assistant messages of `_report_to_messages` — one whose content carries the
report's short summary and one whose content is exactly the follow-up
questions joined by blank lines — and nothing else. -/
theorem report_messages_shape (o : ConvOracles) (st : ConvState) (msg : String)
    (report : ReportData) (st' : ConvState)
    (h : st.phase = Phase.waiting_query)
    (hc : (o.clarifier msg).needs_clarification = false)
    (hrun : run_research o { st with initial_query := msg, phase := Phase.research }
        (pyOr (o.clarifier msg).clarified_query msg) = (.ok report, st')) :
    handle_user_message o st msg =
      (.ok (report_to_messages report), { st' with phase := Phase.waiting_query }) ∧
    report_to_messages report =
      [⟨"assistant", "### Research Complete\n\n**Summary:** " ++ report.short_summary⟩,
       ⟨"assistant", String.intercalate "\n\n" report.follow_up_questions⟩] := by
  refine ⟨?_, rfl⟩
  unfold handle_user_message
  rw [h, if_neg (by simp [hc]), hrun]

/-- C9 witness: the spec's end-to-end scenario — clarifier immediately
clear, 2 planned items, 2 summaries, a report with 3 follow-ups — yields
exactly the summary message and the blank-line-joined follow-up message. -/
theorem report_messages_shape_witness :
    handle_user_message e2eOracles startState "best time to buy in Region 13" =
      (.ok (report_to_messages e2eReport),
        ⟨Phase.waiting_query, none, ["Region 13 buying window"], some e2eReport,
          "best time to buy in Region 13"⟩) ∧
    report_to_messages e2eReport =
      [⟨"assistant",
        "### Research Complete\n\n**Summary:** " ++ e2eReport.short_summary⟩,
       ⟨"assistant", String.intercalate "\n\n" e2eReport.follow_up_questions⟩] :=
  report_messages_shape e2eOracles startState "best time to buy in Region 13"
    e2eReport
    ⟨Phase.research, none, ["Region 13 buying window"], some e2eReport,
      "best time to buy in Region 13"⟩
    rfl rfl rfl

/-! ## C8: context summaries — unbounded list, bounded prefix -/

/-- Iterated turns of the e2e session: each turn completes one research
cycle and returns to `waiting_query`. -/
def convAfter : Nat → ConvState
  | 0 => startState
  | n + 1 => (handle_user_message e2eOracles (convAfter n) "follow-up").2

/-- C8 counterexample: after four completed cycles the controller keeps all
four short-summaries — the stored list is not truncated to the most recent
three, so it is not a bounded most-recent-N list. -/
theorem context_summaries_grow_unbounded :
    (convAfter 4).context_summaries.length = 4 ∧
    ¬ (convAfter 4).context_summaries.length ≤ 3 := by
  refine ⟨?_, ?_⟩ <;> decide

/-- C8 amended: a completed cycle appends its report's short summary to
`context_summaries` (the list grows by one per cycle and is never
truncated), while the next cycle's effective query is prefixed with only the
most recent three summaries, most-recent-last, before the current query. -/
theorem context_append_and_last_three (o : ConvOracles) (st : ConvState)
    (q : String) (report : ReportData) (st' : ConvState)
    (hrun : run_research o st q = (.ok report, st')) :
    st'.context_summaries = st.context_summaries ++ [report.short_summary] ∧
    (∀ (s : List String) (qq : String), s ≠ [] →
      contextCombined s qq =
        "Previous context:\n" ++
          String.intercalate "\n---\n" (s.drop (s.length - 3)) ++
          "\n\nCurrent query: " ++ qq) := by
  constructor
  · unfold run_research at hrun
    split at hrun
    · simp at hrun
    · split at hrun
      · simp at hrun
      · rw [Prod.mk.injEq] at hrun
        obtain ⟨hA, hB⟩ := hrun
        injection hA with hA
        subst hA
        rw [← hB]
  · intro s qq hne
    unfold contextCombined
    rw [if_neg hne]

/-- State of the e2e session mid-research with no prior summaries. -/
def researchStart : ConvState := ⟨Phase.research, none, [], none, ""⟩

/-- The same state after one successful cycle's bookkeeping. -/
def researchAfterOne : ConvState :=
  ⟨Phase.research, none, ["Region 13 buying window"], some e2eReport, ""⟩

/-- C8 witness: one successful cycle appends exactly its short summary, and
a four-summary history is prefixed by its last three entries only. -/
theorem context_append_and_last_three_witness :
    researchAfterOne.context_summaries =
      researchStart.context_summaries ++ [e2eReport.short_summary] ∧
    contextCombined ["s1", "s2", "s3", "s4"] "q" =
      "Previous context:\n" ++
        String.intercalate "\n---\n"
          (["s1", "s2", "s3", "s4"].drop (["s1", "s2", "s3", "s4"].length - 3)) ++
        "\n\nCurrent query: " ++ "q" := by
  have h := context_append_and_last_three e2eOracles researchStart "q" e2eReport
    researchAfterOne rfl
  exact ⟨h.1, h.2 ["s1", "s2", "s3", "s4"] "q" (by decide)⟩

/-! ## C2: planner/writer failure — error surfaced, but phase never reset -/

/-- Oracles whose planner call raises, as a Planner-stage failure. -/
def failPlanOracles : ConvOracles :=
  { clarifier := fun _ =>
      { needs_clarification := false
        clarified_query := some "clarified"
        clarification_questions := []
        reasoning := "clear" }
    planner := fun _ => .error "planner call failed"
    search := fun _ => none
    completionOrder := fun l => l
    writer := fun _ _ => .error "unused" }

/-- C2 divergence, at the failing input (fresh session, clear query, planner
raises): the UI layer does append the user-visible error message, but
`handle_user_message` leaves the controller in phase `research`, so the next
user message takes the busy branch and is answered with the wait message —
it does not start a fresh research cycle as the spec requires. -/
theorem planner_failure_phase_not_reset :
    (handle_user_message failPlanOracles startState "q").2.phase = Phase.research ∧
    (handle_user_input failPlanOracles startState [] "q").1 =
      [⟨"user", "q"⟩,
       ⟨"assistant", "Sorry, I encountered an error: planner call failed"⟩] ∧
    handle_user_message failPlanOracles
        (handle_user_input failPlanOracles startState [] "q").2 "next question" =
      (.ok [waitMessage], (handle_user_input failPlanOracles startState [] "q").2) := by
  refine ⟨rfl, rfl, rfl⟩
